import Mathlib

/-!
Shallow embedding of the sigenpy API client (src/sigenpy/sigen_api.py).

Python/JSON values are modelled by the inductive `JValue`; the Python
exceptions the client can raise are modelled by `PyError`.  The stdlib
pieces the client relies on (`json.loads`, truthiness, `dict.get`,
subscripting, `str.lower`, `float(...)`, `datetime.isoformat`) are
modelled executably below; `json.loads` and `float` are modelled on the
JSON / numeric-literal subset actually exercised by the client (no
exponents, no unicode escapes), which is declared where relevant.

Each client operation is a pure function of the client state and of the
decoded JSON body that the transport returned for the single request the
operation issues; the endpoint string (and query parameters, where the
operation builds them) are returned as the observable model of the
outgoing request.
-/

/-- A JSON / Python number, in exact scaled-decimal form: the value
`mantissa / 10 ^ exp10`.  Exact decimals stand in for Python's binary
floats; the client never does arithmetic on them, it only passes them
through or coerces them, so the representation is observationally
faithful on the decimal literals the wire carries. -/
structure JNum : Type where
  mantissa : Int
  exp10 : Nat
deriving DecidableEq

/-- A JSON / Python value as handled by the client. -/
inductive JValue : Type where
  | null : JValue
  | bool (b : Bool) : JValue
  | num (n : JNum) : JValue
  | str (s : String) : JValue
  | arr (xs : List JValue) : JValue
  | obj (kvs : List (String × JValue)) : JValue

/-- Python `v == s` for a string literal `s`: true exactly when `v` is
that string (`==` between a string and a non-string is `False`). -/
def JValue.eqStr : JValue → String → Bool
  | .str t, s => t = s
  | _, _ => false

/-- A Python dictionary decoded from JSON (insertion-ordered key/value list). -/
abbrev PyDict : Type := List (String × JValue)

/-- The Python exceptions relevant to the client.  The final two
constructors name the typed error conditions of the error model
(`AuthenticationError`, `MalformedResponse`); the code under
`src/sigenpy` never raises them. -/
inductive PyError : Type where
  | keyError (k : String) : PyError
  | typeError (msg : String) : PyError
  | attributeError (msg : String) : PyError
  | valueError (msg : String) : PyError
  | indexError (msg : String) : PyError
  | jsonDecodeError : PyError
  | authenticationError : PyError
  | malformedResponse : PyError
deriving DecidableEq

/-- The typed error conditions named by the error model. -/
def isTypedSpecError : PyError → Bool
  | .authenticationError => true
  | .malformedResponse => true
  | _ => false

/-- Null-pointer-style failures: Python `TypeError` / `AttributeError`
raised by operating on an unexpected (e.g. `None`) value. -/
def isNullPointerStyle : PyError → Bool
  | .typeError _ => true
  | .attributeError _ => true
  | _ => false

/-- Python truthiness of a value (`bool(v)`). -/
def pyTruthy : JValue → Bool
  | .null => false
  | .bool b => b
  | .num n => n.mantissa != 0
  | .str s => s != ""
  | .arr xs => !xs.isEmpty
  | .obj kvs => !kvs.isEmpty

/-- Python `a or b`: the first operand when truthy, else the second. -/
def pyOr (a b : JValue) : JValue := if pyTruthy a then a else b

/-- Lookup in a decoded dictionary.  JSON decoding of duplicate keys is
last-wins in Python, so the lookup prefers the later binding. -/
def dictGet : PyDict → String → Option JValue
  | [], _ => none
  | (k1, v1) :: rest, k =>
    match dictGet rest k with
    | some v => some v
    | none => if k1 = k then some v1 else none

/-- `d.get(key)` on a decoded dictionary: the value, or Python `None`. -/
def dictGetD (kvs : PyDict) (k : String) : JValue :=
  match dictGet kvs k with
  | some v => v
  | none => .null

/-- Python `v.get(key)`: works on dictionaries, raises `AttributeError`
on every other value. -/
def pyGet (v : JValue) (k : String) : Except PyError JValue :=
  match v, k with
  | .obj kvs, k => .ok (dictGetD kvs k)
  | _, _ => .error (.attributeError "object has no attribute get")

/-- Python `v[key]` for a string key. -/
def pySubscript (v : JValue) (k : String) : Except PyError JValue :=
  match v, k with
  | .obj kvs, k =>
    match dictGet kvs k with
    | some x => .ok x
    | none => .error (.keyError k)
  | .arr _, _ => .error (.typeError "list indices must be integers or slices, not str")
  | .str _, _ => .error (.typeError "string indices must be integers")
  | _, _ => .error (.typeError "object is not subscriptable")

/-- Python `len(v)`. -/
def pyLen : JValue → Except PyError Nat
  | .str s => .ok s.length
  | .arr xs => .ok xs.length
  | .obj kvs => .ok kvs.length
  | _ => .error (.typeError "object has no len")

/-- Python `v[i]` for a non-negative integer index. -/
def pyIndexNat : JValue → Nat → Except PyError JValue
  | .arr xs, i =>
    match xs.get? i with
    | some v => .ok v
    | none => .error (.indexError "list index out of range")
  | .str s, i =>
    match s.toList.get? i with
    | some c => .ok (.str (String.mk [c]))
    | none => .error (.indexError "string index out of range")
  | .obj _, _ => .error (.keyError "0")
  | _, _ => .error (.typeError "object is not subscriptable")

/-- Python `for x in v`: lists yield their elements, strings their
characters, dictionaries their keys; other values are not iterable. -/
def pyIterate : JValue → Except PyError (List JValue)
  | .arr xs => .ok xs
  | .str s => .ok (s.toList.map (fun c => .str (String.mk [c])))
  | .obj kvs => .ok (kvs.map (fun kv => .str kv.1))
  | _ => .error (.typeError "object is not iterable")

/-- Python `str(v)`.  Only string inputs are exercised by the client
(identifiers interpolated into endpoint paths); the remaining cases are
rendered canonically. -/
def pyStr : JValue → String
  | .null => "None"
  | .bool b => if b then "True" else "False"
  | .num n => toString n.mantissa ++ (if n.exp10 = 0 then "" else "e-" ++ toString n.exp10)
  | .str s => s
  | .arr _ => "[...]"
  | .obj _ => "dict"

/- JSON decoding: a model of `json.loads` on the JSON subset the client
exchanges (literals, strings with simple escapes, decimal numbers with
optional sign and fraction, arrays, objects). -/

/-- Decimal digit characters to their value. -/
def digitVal (c : Char) : Nat := c.toNat - 48

/-- Fold decimal digit characters into a natural number. -/
def digitsToNat (ds : List Char) : Nat := ds.foldl (fun a c => 10 * a + digitVal c) 0

/-- Parse a decimal number (optional minus sign, integer part, optional
fractional part) from the head of the input. -/
def parseNum (cs : List Char) : Option (JNum × List Char) :=
  let signed : Bool × List Char :=
    match cs with
    | '-' :: t => (true, t)
    | _ => (false, cs)
  let intSpan := signed.2.span Char.isDigit
  if intSpan.1.isEmpty then none
  else
    match intSpan.2 with
    | '.' :: t =>
      let fracSpan := t.span Char.isDigit
      if fracSpan.1.isEmpty then none
      else
        let m : Int := (digitsToNat (intSpan.1 ++ fracSpan.1) : Int)
        some (⟨if signed.1 then -m else m, fracSpan.1.length⟩, fracSpan.2)
    | rest =>
      let m : Int := (digitsToNat intSpan.1 : Int)
      some (⟨if signed.1 then -m else m, 0⟩, rest)

/-- The simple JSON string escapes, escape letter to escaped character. -/
def escTable : List (Char × Char) :=
  [('"', '"'), ('\\', '\\'), ('/', '/'), ('n', '\n'), ('t', '\t'), ('r', '\r')]

/-- Simple JSON string escapes (unicode escapes are not modelled). -/
def escChar (c : Char) : Option Char :=
  (escTable.find? (fun p => p.1 = c)).map Prod.snd

/-- Parse the body of a JSON string after the opening quote, returning
the decoded characters and the input after the closing quote. -/
def parseStringBody : Nat → List Char → Option (List Char × List Char)
  | 0, _ => none
  | _, [] => none
  | fuel + 1, c :: rest =>
    if c = '"' then some ([], rest)
    else if c = '\\' then
      match rest with
      | e :: rest2 =>
        match escChar e with
        | some ec =>
          match parseStringBody fuel rest2 with
          | some (s, r) => some (ec :: s, r)
          | none => none
        | none => none
      | [] => none
    else
      match parseStringBody fuel rest with
      | some (s, r) => some (c :: s, r)
      | none => none

/-- Drop JSON whitespace. -/
def skipWs (cs : List Char) : List Char :=
  cs.dropWhile (fun c => c = ' ' || c = '\n' || c = '\t' || c = '\r')

/-- Strip an expected literal from the head of the input. -/
def stripLit (lit : String) (cs : List Char) : Option (List Char) :=
  if lit.toList.isPrefixOf cs then some (cs.drop lit.length) else none

/-- Parse a double-quoted JSON string starting at its opening quote. -/
def parseQuoted (cs : List Char) : Option (String × List Char) :=
  match cs with
  | '"' :: body => (parseStringBody (body.length + 1) body).map (fun p => (String.mk p.1, p.2))
  | _ => none

mutual

/-- Parse one JSON value from the head of the input, dispatching on its
first character. -/
def parseVal : Nat → List Char → Option (JValue × List Char)
  | 0, _ => none
  | fuel + 1, cs =>
    match skipWs cs with
    | [] => none
    | c :: body =>
      if c = 'n' then (stripLit "ull" body).map (fun r => (JValue.null, r))
      else if c = 't' then (stripLit "rue" body).map (fun r => (JValue.bool true, r))
      else if c = 'f' then (stripLit "alse" body).map (fun r => (JValue.bool false, r))
      else if c = '"' then (parseQuoted (c :: body)).map (fun p => (JValue.str p.1, p.2))
      else if c = '[' then
        match skipWs body with
        | ']' :: after => some (JValue.arr [], after)
        | inner => (parseElems fuel inner).map (fun p => (JValue.arr p.1, p.2))
      else if c = '\x7b' then
        match skipWs body with
        | '\x7d' :: after => some (JValue.obj [], after)
        | inner => (parseMembers fuel inner).map (fun p => (JValue.obj p.1, p.2))
      else (parseNum (c :: body)).map (fun p => (JValue.num p.1, p.2))

/-- Parse the comma-separated elements of a non-empty JSON array, up to
and including the closing bracket. -/
def parseElems : Nat → List Char → Option (List JValue × List Char)
  | 0, _ => none
  | fuel + 1, cs =>
    (parseVal fuel cs).bind fun vr =>
      match skipWs vr.2 with
      | ',' :: more => (parseElems fuel more).map (fun p => (vr.1 :: p.1, p.2))
      | ']' :: after => some ([vr.1], after)
      | _ => none

/-- Parse the comma-separated members of a non-empty JSON object, up to
and including the closing brace. -/
def parseMembers : Nat → List Char → Option (List (String × JValue) × List Char)
  | 0, _ => none
  | fuel + 1, cs =>
    (parseQuoted (skipWs cs)).bind fun kr =>
      match skipWs kr.2 with
      | ':' :: afterColon =>
        (parseVal fuel afterColon).bind fun vr =>
          match skipWs vr.2 with
          | ',' :: more => (parseMembers fuel more).map (fun p => ((kr.1, vr.1) :: p.1, p.2))
          | '\x7d' :: after => some ([(kr.1, vr.1)], after)
          | _ => none
      | _ => none

end

/-- Model of `json.loads`: parse a complete JSON document; `none` models
a raised `json.JSONDecodeError`. -/
def json_loads (s : String) : Option JValue :=
  match parseVal (2 * s.length + 4) s.toList with
  | some (v, rest) => if skipWs rest = [] then some v else none
  | none => none

/- The client (class SigenAPI, src/sigenpy/sigen_api.py). -/

/-- The client's session state.  The three optional instance fields are
Python attributes initialised to `None` (modelled `.null`). -/
structure SigenAPI : Type where
  base_url : String
  username : String
  password : String
  access_token : JValue
  system_id : JValue
  inverter_serial_number : JValue

/-- `SigenAPI.__init__`: strips trailing slashes from the base URL and
initialises the token and cached identifiers to `None`. -/
def makeSigenAPI (base_url username password : String) : SigenAPI :=
  { base_url := String.mk (((base_url.toList.reverse).dropWhile (fun c => c = '/')).reverse)
  , username := username
  , password := password
  , access_token := .null
  , system_id := .null
  , inverter_serial_number := .null }

/-- The message of the `ValueError` raised when no system id is
available. -/
def noSystemIdMsg : String := "No system_id provided or cached. Call get_systems() first."

/-- The message of the `ValueError` raised when no device serial number
is available. -/
def noDeviceSnMsg : String := "No device_serial_number provided or cached. Call get_devices() first."

/-- `SigenAPI._parse_data_field`: read the envelope's `data` field; if it
is a string, try to decode it as JSON, returning the raw string when
decoding fails; otherwise return it unchanged. -/
def parse_data_field (response : PyDict) : JValue :=
  match dictGet response "data" with
  | none => .null
  | some (.str s) =>
    match json_loads s with
    | some v => v
    | none => .str s
  | some d => d

/-- `SigenAPI.login`, from the decoded body of the POST to
`/openapi/auth/login/password`: unwraps the envelope, reads
`data['accessToken']` (a plain subscript), stores it and returns it. -/
def login (api : SigenAPI) (response : PyDict) : Except PyError (SigenAPI × JValue) :=
  let data := parse_data_field response
  match pySubscript data "accessToken" with
  | .error e => .error e
  | .ok tok => .ok ({ api with access_token := tok }, tok)

/-- `SigenAPI.get_systems`, from the decoded body of the GET to
`/openapi/system`: unwraps the envelope and, when the result is truthy
and of positive length, caches `systems[0].get('systemId')`; returns the
endpoint used, the updated client and the unwrapped result. -/
def get_systems (api : SigenAPI) (response : PyDict) :
    Except PyError (String × SigenAPI × JValue) :=
  let endpoint := "/openapi/system"
  let systems := parse_data_field response
  if pyTruthy systems then
    match pyLen systems with
    | .error e => .error e
    | .ok n =>
      if 0 < n then
        match pyIndexNat systems 0 with
        | .error e => .error e
        | .ok first =>
          match pyGet first "systemId" with
          | .error e => .error e
          | .ok sid => .ok (endpoint, { api with system_id := sid }, systems)
      else .ok (endpoint, api, systems)
  else .ok (endpoint, api, systems)

/-- The body of the device loop of `SigenAPI.get_devices`: decode each
element (`json.loads` on strings — its failure escapes — pass-through
otherwise), append it, and cache `device.get('serialNumber')` when
`device.get('deviceType') == 'Inverter'` and the cached serial is falsy.
Returns the decoded devices and the final cached serial. -/
def devicesLoop (inv : JValue) : List JValue → Except PyError (List JValue × JValue)
  | [] => .ok ([], inv)
  | d0 :: rest =>
    let decoded : Except PyError JValue :=
      match d0 with
      | .str s =>
        match json_loads s with
        | some v => .ok v
        | none => .error .jsonDecodeError
      | v => .ok v
    match decoded with
    | .error e => .error e
    | .ok device =>
      match pyGet device "deviceType" with
      | .error e => .error e
      | .ok dt =>
        if dt.eqStr "Inverter" && !(pyTruthy inv) then
          match pyGet device "serialNumber" with
          | .error e => .error e
          | .ok sn =>
            match devicesLoop sn rest with
            | .error e => .error e
            | .ok (ds, invF) => .ok (device :: ds, invF)
        else
          match devicesLoop inv rest with
          | .error e => .error e
          | .ok (ds, invF) => .ok (device :: ds, invF)

/-- `SigenAPI.get_devices`: resolve the system id (argument `or` cached,
`ValueError` when falsy), then iterate `response.get('data', [])`,
decoding each element and caching the first inverter serial.  Returns
the endpoint used, the updated client and the device list. -/
def get_devices (api : SigenAPI) (system_id : JValue) (response : PyDict) :
    Except PyError (String × SigenAPI × List JValue) :=
  let sys_id := pyOr system_id api.system_id
  if !(pyTruthy sys_id) then .error (.valueError noSystemIdMsg)
  else
    let endpoint := "/openapi/system/" ++ pyStr sys_id ++ "/devices"
    let devices_data : JValue :=
      match dictGet response "data" with
      | some v => v
      | none => .arr []
    match pyIterate devices_data with
    | .error e => .error e
    | .ok items =>
      match devicesLoop api.inverter_serial_number items with
      | .error e => .error e
      | .ok (devices, invF) =>
        .ok (endpoint, { api with inverter_serial_number := invF }, devices)

/-- `SigenAPI.get_system_summary`: resolve the system id, then unwrap
the envelope of the GET to `/openapi/systems/(id)/summary`. -/
def get_system_summary (api : SigenAPI) (system_id : JValue) (response : PyDict) :
    Except PyError (String × SigenAPI × JValue) :=
  let sys_id := pyOr system_id api.system_id
  if !(pyTruthy sys_id) then .error (.valueError noSystemIdMsg)
  else
    .ok ("/openapi/systems/" ++ pyStr sys_id ++ "/summary", api, parse_data_field response)

/-- `SigenAPI.get_system_energy_flow`: resolve the system id, then
unwrap the envelope of the GET to `/openapi/systems/(id)/energyFlow`. -/
def get_system_energy_flow (api : SigenAPI) (system_id : JValue) (response : PyDict) :
    Except PyError (String × SigenAPI × JValue) :=
  let sys_id := pyOr system_id api.system_id
  if !(pyTruthy sys_id) then .error (.valueError noSystemIdMsg)
  else
    .ok ("/openapi/systems/" ++ pyStr sys_id ++ "/energyFlow", api, parse_data_field response)

/-- `SigenAPI.get_device_realtime_info`: resolve the system id and the
device serial (each: argument `or` cached, checked in that order), then
unwrap the envelope of the GET to the realtime-info endpoint. -/
def get_device_realtime_info (api : SigenAPI) (device_serial_number system_id : JValue)
    (response : PyDict) : Except PyError (String × SigenAPI × JValue) :=
  let sys_id := pyOr system_id api.system_id
  let dev_sn := pyOr device_serial_number api.inverter_serial_number
  if !(pyTruthy sys_id) then .error (.valueError noSystemIdMsg)
  else if !(pyTruthy dev_sn) then .error (.valueError noDeviceSnMsg)
  else
    .ok ("/openapi/systems/" ++ pyStr sys_id ++ "/devices/" ++ pyStr dev_sn ++ "/realtimeInfo",
         api, parse_data_field response)

/- `datetime` and `isoformat` (used by `get_system_history`).  The
stdlib `datetime` is modelled at second resolution, with the UTC offset
in minutes (`none` for a naive datetime); `isoformat()` renders
`YYYY-MM-DDTHH:MM:SS` plus `±HH:MM` when the datetime is aware. -/

/-- A Python `datetime` value. -/
structure PyDateTime : Type where
  year : Nat
  month : Nat
  day : Nat
  hour : Nat
  minute : Nat
  second : Nat
  tzoffset : Option Int
deriving DecidableEq

/-- The field ranges `datetime` enforces at construction. -/
def PyDateTime.valid (d : PyDateTime) : Bool :=
  1 ≤ d.year && d.year ≤ 9999 && 1 ≤ d.month && d.month ≤ 12 && 1 ≤ d.day && d.day ≤ 31 &&
    d.hour < 24 && d.minute < 60 && d.second < 60 &&
    (match d.tzoffset with
     | none => true
     | some off => off.natAbs < 1440)

/-- The decimal digit character for `d`. -/
def digitChar (d : Nat) : Char := Char.ofNat (48 + d)

/-- Two-digit zero-padded decimal rendering (exact for `n < 100`). -/
def pad2Chars (n : Nat) : List Char := [digitChar (n / 10), digitChar (n % 10)]

/-- Four-digit zero-padded decimal rendering (exact for `n < 10000`). -/
def pad4Chars (n : Nat) : List Char :=
  [digitChar (n / 1000), digitChar (n / 100 % 10), digitChar (n / 10 % 10), digitChar (n % 10)]

/-- The UTC-offset suffix of `isoformat()`: empty for a naive datetime,
`±HH:MM` for an aware one. -/
def offsetChars : Option Int → List Char
  | none => []
  | some off =>
    (if off < 0 then '-' else '+') :: (pad2Chars (off.natAbs / 60) ++ ':' :: pad2Chars (off.natAbs % 60))

/-- The characters of `datetime.isoformat()`. -/
def isoformatChars (d : PyDateTime) : List Char :=
  pad4Chars d.year ++ '-' :: (pad2Chars d.month ++ '-' :: (pad2Chars d.day ++
    'T' :: (pad2Chars d.hour ++ ':' :: (pad2Chars d.minute ++ ':' :: (pad2Chars d.second ++
      offsetChars d.tzoffset)))))

/-- `datetime.isoformat()`. -/
def PyDateTime.isoformat (d : PyDateTime) : String := String.mk (isoformatChars d)

/-- The query-parameter building block of `SigenAPI.get_system_history`: one
parameter per truthy optional argument (a `datetime` instance is always
truthy; an interval string is truthy when non-empty), with datetimes
serialised by `isoformat()`, in the source's insertion order. -/
def historyParams (start_time end_time : Option PyDateTime) (interval : Option String) :
    List (String × String) :=
  (match start_time with
   | some st => [("startTime", st.isoformat)]
   | none => []) ++
  (match end_time with
   | some et => [("endTime", et.isoformat)]
   | none => []) ++
  (match interval with
   | some iv => if iv = "" then [] else [("interval", iv)]
   | none => [])

/-- `SigenAPI.get_system_history`: resolve the system id, then build the
query parameters with `historyParams`.  Returns the endpoint, the
parameters, the unchanged client and the unwrapped envelope. -/
def get_system_history (api : SigenAPI) (system_id : JValue)
    (start_time end_time : Option PyDateTime) (interval : Option String)
    (response : PyDict) :
    Except PyError (String × List (String × String) × SigenAPI × JValue) :=
  let sys_id := pyOr system_id api.system_id
  if !(pyTruthy sys_id) then .error (.valueError noSystemIdMsg)
  else
    let endpoint := "/openapi/systems/" ++ pyStr sys_id ++ "/history"
    .ok (endpoint, historyParams start_time end_time interval, api, parse_data_field response)

/- `float(...)` coercion and the power-flow view
(`SigenAPI.get_current_power_flow`). -/

/-- Python `s.lower()` (ASCII case folding suffices here). -/
def strToLower (s : String) : String := String.mk (s.toList.map Char.toLower)

/-- Python whitespace trimming of `float(str)` input. -/
def trimWs (cs : List Char) : List Char :=
  ((cs.dropWhile (fun c => c = ' ' || c = '\n' || c = '\t' || c = '\r')).reverse.dropWhile
    (fun c => c = ' ' || c = '\n' || c = '\t' || c = '\r')).reverse

/-- `float(s)` on a string: optional surrounding whitespace, optional
sign, decimal digits with optional fraction (exponents, `inf` and `nan`
are not modelled); `none` models a raised `ValueError`. -/
def parseFloatStr (s : String) : Option JNum :=
  let cs := trimWs s.toList
  let cs1 := match cs with
    | '+' :: t => t
    | t => t
  match parseNum cs1 with
  | some (n, []) => some n
  | _ => none

/-- `float(v)`: numbers and booleans coerce, strings coerce when they
parse as a number; `None`, lists and dictionaries raise `TypeError` —
`none` models a raised `ValueError` or `TypeError`. -/
def pyFloat : JValue → Option JNum
  | .num n => some n
  | .bool b => some ⟨if b then 1 else 0, 0⟩
  | .str s => parseFloatStr s
  | _ => none

/-- Whether `needle` occurs as a contiguous subsequence of `hay`
(Python `needle in hay` on strings, over their characters). -/
def containsSeq (needle : List Char) : List Char → Bool
  | [] => needle.isEmpty
  | c :: t => needle.isPrefixOf (c :: t) || containsSeq needle t

/-- The key filter of `get_current_power_flow`:
`'power' in key.lower() or 'watt' in key.lower()`. -/
def powerKeyMatch (k : String) : Bool :=
  containsSeq "power".toList (strToLower k).toList ||
    containsSeq "watt".toList (strToLower k).toList

/-- The `try: float(value) except (ValueError, TypeError): value` step
of `get_current_power_flow`. -/
def coercePower (v : JValue) : JValue :=
  match pyFloat v with
  | some n => .num n
  | none => v

/-- Python dictionary assignment `d[k] = v`: overwrite in place when the
key exists, append otherwise. -/
def dictSet (d : PyDict) (k : String) (v : JValue) : PyDict :=
  if d.any (fun kv => kv.1 = k) then
    d.map (fun kv => if kv.1 = k then (k, v) else kv)
  else d ++ [(k, v)]

/-- The dictionary-building loop of `get_current_power_flow` over
`energy_flow.items()`. -/
def powerFlowFold (kvs : PyDict) : PyDict :=
  kvs.foldl
    (fun acc kv => if powerKeyMatch kv.1 then dictSet acc kv.1 (coercePower kv.2) else acc) []

/-- `SigenAPI.get_current_power_flow`: fetch the energy flow, then keep
the items whose key contains `power` or `watt` case-insensitively,
coercing each kept value with `float` where that succeeds. -/
def get_current_power_flow (api : SigenAPI) (system_id : JValue) (response : PyDict) :
    Except PyError (String × SigenAPI × PyDict) :=
  match get_system_energy_flow api system_id response with
  | .error e => .error e
  | .ok (endpoint, api1, energy_flow) =>
    match energy_flow with
    | .obj kvs => .ok (endpoint, api1, powerFlowFold kvs)
    | _ => .error (.attributeError "object has no attribute items")

/- Derived notions used to state the properties. -/

/-- One device element as the loop decodes it: a string element is
decoded on its own, any other element passes through (`none` models the
decode raising). -/
def decodeElem : JValue → Option JValue
  | .str s => json_loads s
  | v => some v

/-- A decoded device whose type marks it as an inverter. -/
def isInverterDev (d : JValue) : Bool :=
  match d with
  | .obj kvs => (dictGetD kvs "deviceType").eqStr "Inverter"
  | _ => false

/-- The serial number of a decoded device. -/
def devSerial (d : JValue) : JValue :=
  match d with
  | .obj kvs => dictGetD kvs "serialNumber"
  | _ => .null

/-- A concrete client fresh from construction (used by concrete
instantiations below). -/
def apiFresh : SigenAPI := makeSigenAPI "https://api-aus.sigencloud.com" "user" "pass"

/-- A concrete client with a cached system id. -/
def apiWithSys : SigenAPI := { apiFresh with system_id := .str "S1" }

/- Theorems. -/

/-- Unwrapping only reads the `data` field of the envelope. -/
theorem parse_data_field_congr (r1 r2 : PyDict) (h : dictGet r1 "data" = dictGet r2 "data") :
    parse_data_field r1 = parse_data_field r2 := by
  unfold parse_data_field
  rw [h]

/-- C2 (confirmed): the shared unwrapping step: a textual `data` field is
decoded as JSON and, on decode failure, returned as the raw string unchanged
(no error raised on this secondary decode); a structured (or absent — Python
`None`) `data` field is returned as-is. -/
theorem parse_data_field_unwrap (response : PyDict) :
    (∀ s, dictGet response "data" = some (.str s) →
      (∀ v, json_loads s = some v → parse_data_field response = v) ∧
      (json_loads s = none → parse_data_field response = .str s)) ∧
    (∀ d, dictGet response "data" = some d → (∀ s, d ≠ .str s) →
      parse_data_field response = d) ∧
    (dictGet response "data" = none → parse_data_field response = .null) := by
  refine ⟨?_, ?_, ?_⟩
  · intro s hs
    constructor
    · intro v hv
      simp only [parse_data_field, hs, hv]
    · intro hn
      simp only [parse_data_field, hs, hn]
  · intro d hd hns
    simp only [parse_data_field, hd]
  · intro hn
    simp only [parse_data_field, hn]

/-- Witness for C2 at concrete envelopes: a non-JSON string payload is
returned unchanged; a JSON-encoded string payload is decoded. -/
theorem parse_data_field_unwrap_witness :
    parse_data_field [("data", JValue.str "plain-text")] = .str "plain-text" ∧
    parse_data_field [("data", JValue.str "[1]")] = .arr [.num ⟨1, 0⟩] :=
  ⟨((parse_data_field_unwrap [("data", JValue.str "plain-text")]).1 "plain-text" rfl).2 rfl,
   ((parse_data_field_unwrap [("data", JValue.str "[1]")]).1 "[1]" rfl).1 (.arr [.num ⟨1, 0⟩]) rfl⟩

/-- C1 counterexample: at a concrete login response whose decoded `data` lacks
an access-token entry, `login` fails with the raw `KeyError` escaping the
subscript — not one of the typed error conditions the claim requires. -/
theorem login_missing_token_cex :
    login apiFresh
        [("code", .num ⟨0, 0⟩), ("msg", .str "success"), ("data", .str "\x7b\"userId\":\"u1\"\x7d")] =
      .error (.keyError "accessToken") ∧
    isTypedSpecError (.keyError "accessToken") = false :=
  ⟨rfl, rfl⟩

/-- C1 (amended): when the decoded `data` of a login response lacks an
access-token entry, the raw key/index failure escapes `login` untyped — a
`KeyError` when the data is a mapping without the key, a `TypeError` when it is
not a mapping — no typed `AuthenticationError`/`MalformedResponse` condition is
raised; when the token entry is present, `login` stores that token in the
client session and returns it. -/
theorem login_token_amended (api : SigenAPI) (response : PyDict) :
    (∀ kvs, parse_data_field response = .obj kvs → dictGet kvs "accessToken" = none →
      login api response = .error (.keyError "accessToken") ∧
      isTypedSpecError (.keyError "accessToken") = false) ∧
    (∀ kvs tok, parse_data_field response = .obj kvs → dictGet kvs "accessToken" = some tok →
      login api response = .ok ({ api with access_token := tok }, tok)) ∧
    (∀ s, parse_data_field response = .str s →
      login api response = .error (.typeError "string indices must be integers") ∧
      isTypedSpecError (.typeError "string indices must be integers") = false) := by
  refine ⟨?_, ?_, ?_⟩
  · intro kvs hobj hmiss
    refine ⟨?_, rfl⟩
    simp only [login, hobj, pySubscript, hmiss]
  · intro kvs tok hobj hhit
    simp only [login, hobj, pySubscript, hhit]
  · intro s hstr
    refine ⟨?_, rfl⟩
    simp only [login, hstr, pySubscript]

/-- Witness for C1's amended claim at the documented example scenario:
`data` is the JSON-encoded string of an object carrying the token, and the
token is stored and returned. -/
theorem login_token_amended_witness :
    login apiFresh [("code", .num ⟨0, 0⟩), ("data", .str "\x7b\"accessToken\":\"abc123\"\x7d")] =
      .ok ({ apiFresh with access_token := .str "abc123" }, .str "abc123") :=
  (login_token_amended apiFresh
      [("code", .num ⟨0, 0⟩), ("data", .str "\x7b\"accessToken\":\"abc123\"\x7d")]).2.1
    [("accessToken", .str "abc123")] (.str "abc123") rfl rfl

/-- C3 counterexample: with a cached system id and a concrete envelope whose
application status code is non-zero, `get_system_summary` raises nothing (the
call succeeds) but yields only the unwrapped `data` field — the result is not
the full envelope, so the status code and message are not available in it. -/
theorem summary_envelope_cex :
    get_system_summary apiWithSys .null
        [("code", .num ⟨500, 0⟩), ("msg", .str "failure"), ("data", .str "xyz")] =
      .ok ("/openapi/systems/S1/summary", apiWithSys, .str "xyz") ∧
    JValue.str "xyz" ≠
      JValue.obj [("code", .num ⟨500, 0⟩), ("msg", .str "failure"), ("data", .str "xyz")] :=
  ⟨rfl, fun h => JValue.noConfusion h⟩

/-- C3 (amended): the client never converts a non-success application status
into a thrown error — with a system id available, `get_system_summary` succeeds
on every envelope, whatever its status code, and its result depends only on the
envelope's `data` field — but the caller receives only the unwrapped `data`,
not the full envelope: the status code and message are stripped by the
unwrapping rather than surfaced. -/
theorem summary_status_ignored (api : SigenAPI) (system_id : JValue) (resp resp2 : PyDict) :
    (pyTruthy (pyOr system_id api.system_id) = true →
      get_system_summary api system_id resp =
        .ok ("/openapi/systems/" ++ pyStr (pyOr system_id api.system_id) ++ "/summary",
             api, parse_data_field resp)) ∧
    (dictGet resp2 "data" = dictGet resp "data" →
      get_system_summary api system_id resp2 = get_system_summary api system_id resp) := by
  constructor
  · intro hsys
    simp only [get_system_summary, hsys, Bool.not_true, Bool.false_eq_true, if_false]
  · intro hdata
    simp only [get_system_summary, parse_data_field_congr resp2 resp hdata]

/-- Witness for C3's amended claim: a concrete envelope with non-zero status
code is returned unwrapped, with no error, and changing the status code does
not change the result. -/
theorem summary_status_ignored_witness :
    get_system_summary apiWithSys .null [("code", .num ⟨424, 0⟩), ("data", .obj [("soc", .num ⟨55, 0⟩)])] =
      .ok ("/openapi/systems/S1/summary", apiWithSys, .obj [("soc", .num ⟨55, 0⟩)]) ∧
    get_system_summary apiWithSys .null [("code", .num ⟨0, 0⟩), ("data", .obj [("soc", .num ⟨55, 0⟩)])] =
      get_system_summary apiWithSys .null [("code", .num ⟨424, 0⟩), ("data", .obj [("soc", .num ⟨55, 0⟩)])] :=
  ⟨(summary_status_ignored apiWithSys .null
      [("code", .num ⟨424, 0⟩), ("data", .obj [("soc", .num ⟨55, 0⟩)])] []).1 rfl,
   (summary_status_ignored apiWithSys .null
      [("code", .num ⟨424, 0⟩), ("data", .obj [("soc", .num ⟨55, 0⟩)])]
      [("code", .num ⟨0, 0⟩), ("data", .obj [("soc", .num ⟨55, 0⟩)])]).2 rfl⟩

/-- C4 (confirmed): the cached system identifier is only overwritten by an
enumeration call whose unwrapped result is non-empty: a non-empty list sets it
to the first element's identifier (`systems[0].get('systemId')`), while an
empty list — or a falsy `None` result — leaves the previously cached
identifier untouched; it is never cleared by an empty result. -/
theorem get_systems_cache_policy (api : SigenAPI) (response : PyDict) :
    (∀ kvs rest, parse_data_field response = .arr (.obj kvs :: rest) →
      get_systems api response =
        .ok ("/openapi/system", { api with system_id := dictGetD kvs "systemId" },
             .arr (.obj kvs :: rest))) ∧
    (parse_data_field response = .arr [] →
      get_systems api response = .ok ("/openapi/system", api, .arr [])) ∧
    (parse_data_field response = .null →
      get_systems api response = .ok ("/openapi/system", api, .null)) := by
  refine ⟨?_, ?_, ?_⟩
  · intro kvs rest h
    simp [get_systems, h, pyTruthy, pyLen, pyIndexNat, pyGet]
  · intro h
    simp [get_systems, h, pyTruthy]
  · intro h
    simp [get_systems, h, pyTruthy]

/-- Witness for C4 at the documented example scenario: a one-element system
list caches `S1`; a following empty-list call leaves the cached `S1`
untouched. -/
theorem get_systems_cache_policy_witness :
    get_systems apiFresh
        [("code", .num ⟨0, 0⟩),
         ("data", .arr [.obj [("systemId", .str "S1"), ("systemName", .str "Home")]])] =
      .ok ("/openapi/system", { apiFresh with system_id := .str "S1" },
           .arr [.obj [("systemId", .str "S1"), ("systemName", .str "Home")]]) ∧
    get_systems { apiFresh with system_id := .str "S1" } [("code", .num ⟨0, 0⟩), ("data", .arr [])] =
      .ok ("/openapi/system", { apiFresh with system_id := .str "S1" }, .arr []) :=
  ⟨(get_systems_cache_policy apiFresh
      [("code", .num ⟨0, 0⟩),
       ("data", .arr [.obj [("systemId", .str "S1"), ("systemName", .str "Home")]])]).1
      [("systemId", .str "S1"), ("systemName", .str "Home")] [] rfl,
   (get_systems_cache_policy { apiFresh with system_id := .str "S1" }
      [("code", .num ⟨0, 0⟩), ("data", .arr [])]).2.1 rfl⟩

/-- C10 (confirmed): a non-empty system list whose first element lacks a
`systemId` key overwrites the cached identifier with the absent value (Python
`None`): a previously cached identifier is cleared by such a non-empty
response, because the cache is unconditionally assigned the first element's
possibly-missing identifier. -/
theorem get_systems_overwrites_with_null (api : SigenAPI) (response : PyDict)
    (kvs : PyDict) (rest : List JValue)
    (hdata : parse_data_field response = .arr (.obj kvs :: rest))
    (hmiss : dictGet kvs "systemId" = none) :
    get_systems api response =
      .ok ("/openapi/system", { api with system_id := .null }, .arr (.obj kvs :: rest)) := by
  simp [get_systems, hdata, pyTruthy, pyLen, pyIndexNat, pyGet, dictGetD, hmiss]

/-- Witness for C10: a client with `OLD` cached receives a non-empty list
whose first element has no `systemId`; the cache is cleared to `None`. -/
theorem get_systems_overwrites_with_null_witness :
    get_systems { apiFresh with system_id := .str "OLD" }
        [("data", .arr [.obj [("systemName", .str "X")]])] =
      .ok ("/openapi/system", { apiFresh with system_id := .null },
           .arr [.obj [("systemName", .str "X")]]) :=
  get_systems_overwrites_with_null { apiFresh with system_id := .str "OLD" }
    [("data", .arr [.obj [("systemName", .str "X")]])]
    [("systemName", .str "X")] [] rfl rfl

/-- Unfolding of the device loop for one decoded head element. -/
theorem devicesLoop_cons (inv raw device : JValue) (tl : List JValue)
    (hdec : decodeElem raw = some device) :
    devicesLoop inv (raw :: tl) =
      match pyGet device "deviceType" with
      | .error e => .error e
      | .ok dt =>
        if dt.eqStr "Inverter" && !(pyTruthy inv) then
          match pyGet device "serialNumber" with
          | .error e => .error e
          | .ok sn =>
            match devicesLoop sn tl with
            | .error e => .error e
            | .ok (ds, invF) => .ok (device :: ds, invF)
        else
          match devicesLoop inv tl with
          | .error e => .error e
          | .ok (ds, invF) => .ok (device :: ds, invF) := by
  cases raw with
  | str s =>
    have hs : json_loads s = some device := hdec
    simp only [devicesLoop, hs]
  | null => injection hdec with h; subst h; rfl
  | bool b => injection hdec with h; subst h; rfl
  | num n => injection hdec with h; subst h; rfl
  | arr xs => injection hdec with h; subst h; rfl
  | obj kvs => injection hdec with h; subst h; rfl

/-- When every raw element decodes and every decoded device is a mapping, the
device loop succeeds and returns exactly the decoded devices, in order. -/
theorem devicesLoop_decodes (raws : List JValue) :
    ∀ ds inv, List.Forall₂ (fun raw d => decodeElem raw = some d) raws ds →
      (∀ d ∈ ds, ∃ kvs, d = .obj kvs) →
      ∃ invF, devicesLoop inv raws = .ok (ds, invF) := by
  induction raws with
  | nil =>
    intro ds inv h _
    cases h
    exact ⟨inv, rfl⟩
  | cons raw tl ih =>
    intro ds inv h hobj
    cases h with
    | cons h1 htl =>
      rename_i d ds'
      obtain ⟨kvs, rfl⟩ := hobj d (List.mem_cons_self _ _)
      have hrest : ∀ x ∈ ds', ∃ k, x = JValue.obj k := fun x hx =>
        hobj x (List.mem_cons_of_mem _ hx)
      rw [devicesLoop_cons inv raw (.obj kvs) tl h1]
      simp only [pyGet]
      by_cases hcond : ((dictGetD kvs "deviceType").eqStr "Inverter" && !pyTruthy inv) = true
      · obtain ⟨invF, hF⟩ := ih ds' (dictGetD kvs "serialNumber") htl hrest
        exact ⟨invF, by rw [if_pos hcond, hF]⟩
      · obtain ⟨invF, hF⟩ := ih ds' inv htl hrest
        exact ⟨invF, by rw [if_neg hcond, hF]⟩

/-- Once the cached inverter serial is truthy, the device loop never changes
it. -/
theorem devicesLoop_frozen (raws : List JValue) :
    ∀ inv ds invF, pyTruthy inv = true → devicesLoop inv raws = .ok (ds, invF) →
      invF = inv := by
  induction raws with
  | nil =>
    intro inv ds invF _ h
    injection h with h1
    injection h1 with h2 h3
    exact h3.symm
  | cons raw tl ih =>
    intro inv ds invF hinv h
    simp only [devicesLoop, hinv, Bool.not_true, Bool.and_false, Bool.false_eq_true,
      if_false] at h
    split at h
    · cases h
    · split at h
      · cases h
      · split at h
        · cases h
        · rename_i heq
          injection h with h1
          injection h1 with h2 h3
          subst h3
          exact ih inv _ _ hinv heq

/-- With nothing cached, the device loop ends with the serial of the first
decoded device marked as an inverter, provided that serial is truthy. -/
theorem devicesLoop_first_inverter (raws : List JValue) :
    ∀ ds inv d0, pyTruthy inv = false →
      List.Forall₂ (fun raw d => decodeElem raw = some d) raws ds →
      (∀ d ∈ ds, ∃ kvs, d = .obj kvs) →
      ds.find? isInverterDev = some d0 →
      pyTruthy (devSerial d0) = true →
      devicesLoop inv raws = .ok (ds, devSerial d0) := by
  induction raws with
  | nil =>
    intro ds inv d0 _ h _ hfind _
    cases h
    simp at hfind
  | cons raw tl ih =>
    intro ds inv d0 hinv h hobj hfind hser
    cases h with
    | cons h1 htl =>
      rename_i d ds'
      obtain ⟨kvs, rfl⟩ := hobj d (List.mem_cons_self _ _)
      have hrest : ∀ x ∈ ds', ∃ k, x = JValue.obj k := fun x hx =>
        hobj x (List.mem_cons_of_mem _ hx)
      rw [devicesLoop_cons inv raw (.obj kvs) tl h1]
      simp only [pyGet]
      by_cases hd : isInverterDev (.obj kvs) = true
      · rw [List.find?_cons_of_pos _ hd] at hfind
        injection hfind with h0
        subst h0
        have hc : ((dictGetD kvs "deviceType").eqStr "Inverter" && !pyTruthy inv) = true := by
          have hd2 : (dictGetD kvs "deviceType").eqStr "Inverter" = true := hd
          rw [hd2, hinv]
          rfl
        rw [if_pos hc]
        have hsertr : pyTruthy (dictGetD kvs "serialNumber") = true := hser
        obtain ⟨invF, hF⟩ := devicesLoop_decodes tl ds' (dictGetD kvs "serialNumber") htl hrest
        have hfr : invF = dictGetD kvs "serialNumber" :=
          devicesLoop_frozen tl (dictGetD kvs "serialNumber") ds' invF hsertr hF
        rw [hF, hfr]
        rfl
      · rw [List.find?_cons_of_neg _ (by simpa using hd)] at hfind
        have hc : ((dictGetD kvs "deviceType").eqStr "Inverter" && !pyTruthy inv) = false := by
          have hd2 : (dictGetD kvs "deviceType").eqStr "Inverter" = false := by
            simpa [isInverterDev] using hd
          rw [hd2]
          rfl
        rw [if_neg (by rw [hc]; exact Bool.false_ne_true)]
        rw [ih ds' inv d0 hinv htl hrest hfind hser]

/-- C5 (confirmed): `get_devices` decodes each raw element individually — a
JSON-encoded string element is decoded on its own and a non-string element
passes through unchanged (that is `decodeElem`) — so two calls whose raw
arrays decode elementwise to the same device objects return deep-equal device
lists, regardless of which elements arrived as JSON strings and which as
native objects. -/
theorem get_devices_decode_transparency (api : SigenAPI) (sysArg : JValue)
    (resp1 resp2 : PyDict) (raw1 raw2 ds : List JValue)
    (hsys : pyTruthy (pyOr sysArg api.system_id) = true)
    (h1 : dictGet resp1 "data" = some (.arr raw1))
    (h2 : dictGet resp2 "data" = some (.arr raw2))
    (hd1 : List.Forall₂ (fun raw d => decodeElem raw = some d) raw1 ds)
    (hd2 : List.Forall₂ (fun raw d => decodeElem raw = some d) raw2 ds)
    (hobj : ∀ d ∈ ds, ∃ kvs, d = .obj kvs) :
    ∃ api1 api2,
      get_devices api sysArg resp1 =
        .ok ("/openapi/system/" ++ pyStr (pyOr sysArg api.system_id) ++ "/devices", api1, ds) ∧
      get_devices api sysArg resp2 =
        .ok ("/openapi/system/" ++ pyStr (pyOr sysArg api.system_id) ++ "/devices", api2, ds) := by
  obtain ⟨invF1, hF1⟩ := devicesLoop_decodes raw1 ds api.inverter_serial_number hd1 hobj
  obtain ⟨invF2, hF2⟩ := devicesLoop_decodes raw2 ds api.inverter_serial_number hd2 hobj
  refine ⟨{ api with inverter_serial_number := invF1 },
          { api with inverter_serial_number := invF2 }, ?_, ?_⟩
  · simp only [get_devices, hsys, Bool.not_true, Bool.false_eq_true, if_false, h1,
      pyIterate, hF1]
  · simp only [get_devices, hsys, Bool.not_true, Bool.false_eq_true, if_false, h2,
      pyIterate, hF2]

/-- Witness for C5: the same two devices arrive once with the inverter as a
JSON-encoded string, once as two native objects; the returned device lists are
deep-equal. -/
theorem get_devices_decode_transparency_witness :
    ∃ api1 api2,
      get_devices apiWithSys .null
          [("data", .arr [.str "\x7b\"deviceType\":\"Inverter\",\"serialNumber\":\"SN1\"\x7d",
                          .obj [("deviceType", .str "Battery")]])] =
        .ok ("/openapi/system/S1/devices", api1,
             [.obj [("deviceType", .str "Inverter"), ("serialNumber", .str "SN1")],
              .obj [("deviceType", .str "Battery")]]) ∧
      get_devices apiWithSys .null
          [("data", .arr [.obj [("deviceType", .str "Inverter"), ("serialNumber", .str "SN1")],
                          .obj [("deviceType", .str "Battery")]])] =
        .ok ("/openapi/system/S1/devices", api2,
             [.obj [("deviceType", .str "Inverter"), ("serialNumber", .str "SN1")],
              .obj [("deviceType", .str "Battery")]]) :=
  get_devices_decode_transparency apiWithSys .null
    [("data", .arr [.str "\x7b\"deviceType\":\"Inverter\",\"serialNumber\":\"SN1\"\x7d",
                    .obj [("deviceType", .str "Battery")]])]
    [("data", .arr [.obj [("deviceType", .str "Inverter"), ("serialNumber", .str "SN1")],
                    .obj [("deviceType", .str "Battery")]])]
    [.str "\x7b\"deviceType\":\"Inverter\",\"serialNumber\":\"SN1\"\x7d",
     .obj [("deviceType", .str "Battery")]]
    [.obj [("deviceType", .str "Inverter"), ("serialNumber", .str "SN1")],
     .obj [("deviceType", .str "Battery")]]
    [.obj [("deviceType", .str "Inverter"), ("serialNumber", .str "SN1")],
     .obj [("deviceType", .str "Battery")]]
    rfl rfl rfl
    (List.Forall₂.cons rfl (List.Forall₂.cons rfl List.Forall₂.nil))
    (List.Forall₂.cons rfl (List.Forall₂.cons rfl List.Forall₂.nil))
    (by
      intro d hd
      simp only [List.mem_cons, List.not_mem_nil, or_false] at hd
      rcases hd with rfl | rfl
      · exact ⟨_, rfl⟩
      · exact ⟨_, rfl⟩)

/-- C6 (confirmed): the cached inverter serial is first-match-wins — with a
truthy serial already cached, `get_devices` never changes it (instantiating
this across successive states covers "any subsequent call"); with nothing
cached, the serial is set to that of the first decoded device whose type marks
it as an inverter, provided that device carries a truthy serial. -/
theorem get_devices_inverter_first_match (api : SigenAPI) (sysArg : JValue)
    (resp : PyDict) (raws ds : List JValue)
    (hsys : pyTruthy (pyOr sysArg api.system_id) = true)
    (hdata : dictGet resp "data" = some (.arr raws))
    (hdec : List.Forall₂ (fun raw d => decodeElem raw = some d) raws ds)
    (hobj : ∀ d ∈ ds, ∃ kvs, d = .obj kvs) :
    (∀ ep api1 ds1, pyTruthy api.inverter_serial_number = true →
      get_devices api sysArg resp = .ok (ep, api1, ds1) →
      api1.inverter_serial_number = api.inverter_serial_number) ∧
    (∀ d0, pyTruthy api.inverter_serial_number = false →
      ds.find? isInverterDev = some d0 → pyTruthy (devSerial d0) = true →
      get_devices api sysArg resp =
        .ok ("/openapi/system/" ++ pyStr (pyOr sysArg api.system_id) ++ "/devices",
             { api with inverter_serial_number := devSerial d0 }, ds)) := by
  constructor
  · intro ep api1 ds1 hinv hok
    simp only [get_devices, hsys, Bool.not_true, Bool.false_eq_true, if_false, hdata,
      pyIterate] at hok
    split at hok
    · cases hok
    · rename_i devices invF heq
      injection hok with e1
      injection e1 with e2 e34
      injection e34 with e4 e5
      subst e4
      exact devicesLoop_frozen raws api.inverter_serial_number devices invF hinv heq
  · intro d0 hinv hfind hser
    have hloop := devicesLoop_first_inverter raws ds api.inverter_serial_number d0 hinv
      hdec hobj hfind hser
    simp only [get_devices, hsys, Bool.not_true, Bool.false_eq_true, if_false, hdata,
      pyIterate, hloop]

/-- Witness for C6: with nothing cached, a call whose decoded devices contain
two inverters (SN1 first, arriving as a JSON string) caches SN1; a second call
on the resulting client, with a different inverter (SN2) present, leaves the
cached serial at SN1. -/
theorem get_devices_inverter_first_match_witness :
    get_devices apiWithSys .null
        [("data", .arr [.str "\x7b\"deviceType\":\"Inverter\",\"serialNumber\":\"SN1\"\x7d",
                        .obj [("deviceType", .str "Inverter"), ("serialNumber", .str "SN2")]])] =
      .ok ("/openapi/system/S1/devices",
           { apiWithSys with inverter_serial_number := .str "SN1" },
           [.obj [("deviceType", .str "Inverter"), ("serialNumber", .str "SN1")],
            .obj [("deviceType", .str "Inverter"), ("serialNumber", .str "SN2")]]) ∧
    get_devices { apiWithSys with inverter_serial_number := .str "SN1" } .null
        [("data", .arr [.obj [("deviceType", .str "Inverter"), ("serialNumber", .str "SN2")]])] =
      .ok ("/openapi/system/S1/devices",
           { apiWithSys with inverter_serial_number := .str "SN1" },
           [.obj [("deviceType", .str "Inverter"), ("serialNumber", .str "SN2")]]) :=
  ⟨(get_devices_inverter_first_match apiWithSys .null
      [("data", .arr [.str "\x7b\"deviceType\":\"Inverter\",\"serialNumber\":\"SN1\"\x7d",
                      .obj [("deviceType", .str "Inverter"), ("serialNumber", .str "SN2")]])]
      [.str "\x7b\"deviceType\":\"Inverter\",\"serialNumber\":\"SN1\"\x7d",
       .obj [("deviceType", .str "Inverter"), ("serialNumber", .str "SN2")]]
      [.obj [("deviceType", .str "Inverter"), ("serialNumber", .str "SN1")],
       .obj [("deviceType", .str "Inverter"), ("serialNumber", .str "SN2")]]
      rfl rfl
      (List.Forall₂.cons rfl (List.Forall₂.cons rfl List.Forall₂.nil))
      (by
        intro d hd
        simp only [List.mem_cons, List.not_mem_nil, or_false] at hd
        rcases hd with rfl | rfl
        · exact ⟨_, rfl⟩
        · exact ⟨_, rfl⟩)).2
      (.obj [("deviceType", .str "Inverter"), ("serialNumber", .str "SN1")]) rfl rfl rfl,
   rfl⟩

/-- C7 (confirmed): every system-scoped operation resolves its system id (and
device serial, where applicable) with the same precedence — a truthy explicit
argument wins over the cached value, the cached value is used otherwise — and
when neither is available the operation fails with the typed `ValueError`
carrying the missing-context message, which is not a null-pointer-style
`TypeError`/`AttributeError`. -/
theorem missing_context_resolution (api : SigenAPI) (ex dev : JValue) (resp : PyDict) :
    (pyTruthy ex = true → pyOr ex api.system_id = ex) ∧
    (pyTruthy ex = false → pyOr ex api.system_id = api.system_id) ∧
    (pyTruthy (pyOr ex api.system_id) = false →
      get_devices api ex resp = .error (.valueError noSystemIdMsg)) ∧
    (∀ r, pyTruthy (pyOr ex api.system_id) = true → get_devices api ex resp = .ok r →
      r.1 = "/openapi/system/" ++ pyStr (pyOr ex api.system_id) ++ "/devices") ∧
    (pyTruthy (pyOr ex api.system_id) = false →
      get_system_summary api ex resp = .error (.valueError noSystemIdMsg)) ∧
    (pyTruthy (pyOr ex api.system_id) = true →
      get_system_summary api ex resp =
        .ok ("/openapi/systems/" ++ pyStr (pyOr ex api.system_id) ++ "/summary", api,
             parse_data_field resp)) ∧
    (pyTruthy (pyOr ex api.system_id) = false →
      get_system_energy_flow api ex resp = .error (.valueError noSystemIdMsg)) ∧
    (pyTruthy (pyOr ex api.system_id) = true →
      get_system_energy_flow api ex resp =
        .ok ("/openapi/systems/" ++ pyStr (pyOr ex api.system_id) ++ "/energyFlow", api,
             parse_data_field resp)) ∧
    (pyTruthy (pyOr ex api.system_id) = false →
      get_device_realtime_info api dev ex resp = .error (.valueError noSystemIdMsg)) ∧
    (pyTruthy (pyOr ex api.system_id) = true →
      pyTruthy (pyOr dev api.inverter_serial_number) = false →
      get_device_realtime_info api dev ex resp = .error (.valueError noDeviceSnMsg)) ∧
    (pyTruthy (pyOr ex api.system_id) = true →
      pyTruthy (pyOr dev api.inverter_serial_number) = true →
      get_device_realtime_info api dev ex resp =
        .ok ("/openapi/systems/" ++ pyStr (pyOr ex api.system_id) ++ "/devices/" ++
               pyStr (pyOr dev api.inverter_serial_number) ++ "/realtimeInfo", api,
             parse_data_field resp)) ∧
    (∀ st et iv, pyTruthy (pyOr ex api.system_id) = false →
      get_system_history api ex st et iv resp = .error (.valueError noSystemIdMsg)) ∧
    (∀ st et iv r, pyTruthy (pyOr ex api.system_id) = true →
      get_system_history api ex st et iv resp = .ok r →
      r.1 = "/openapi/systems/" ++ pyStr (pyOr ex api.system_id) ++ "/history") ∧
    isNullPointerStyle (.valueError noSystemIdMsg) = false ∧
    isNullPointerStyle (.valueError noDeviceSnMsg) = false := by
  refine ⟨fun h => ?_, fun h => ?_, fun h => ?_, fun r h hok => ?_, fun h => ?_, fun h => ?_,
    fun h => ?_, fun h => ?_, fun h => ?_, fun h1 h2 => ?_, fun h1 h2 => ?_,
    fun st et iv h => ?_, fun st et iv r h hok => ?_, rfl, rfl⟩
  · simp only [pyOr, h, if_true]
  · simp only [pyOr, h, Bool.false_eq_true, if_false]
  · simp only [get_devices, h, Bool.not_false, if_true]
  · simp only [get_devices, h, Bool.not_true, Bool.false_eq_true, if_false] at hok
    split at hok
    · cases hok
    · split at hok
      · cases hok
      · injection hok with e1
        rw [← e1]
  · simp only [get_system_summary, h, Bool.not_false, if_true]
  · simp only [get_system_summary, h, Bool.not_true, Bool.false_eq_true, if_false]
  · simp only [get_system_energy_flow, h, Bool.not_false, if_true]
  · simp only [get_system_energy_flow, h, Bool.not_true, Bool.false_eq_true, if_false]
  · simp only [get_device_realtime_info, h, Bool.not_false, if_true]
  · simp only [get_device_realtime_info, h1, h2, Bool.not_true, Bool.not_false,
      Bool.false_eq_true, if_false, if_true]
  · simp only [get_device_realtime_info, h1, h2, Bool.not_true, Bool.false_eq_true, if_false]
  · simp only [get_system_history, h, Bool.not_false, if_true]
  · simp only [get_system_history, h, Bool.not_true, Bool.false_eq_true, if_false] at hok
    injection hok with e1
    rw [← e1]

/-- Witness for C7 at concrete inputs: an explicit id wins over a cached one;
the cached id is used when no argument is given; with neither, each operation
raises the missing-context `ValueError`; with a system id but no device
serial, the realtime-info call raises the device-serial `ValueError`. -/
theorem missing_context_resolution_witness :
    pyOr (.str "EXP") (JValue.str "S1") = .str "EXP" ∧
    get_system_summary apiWithSys (.str "EXP") [] =
      .ok ("/openapi/systems/EXP/summary", apiWithSys, .null) ∧
    get_system_summary apiWithSys .null [] =
      .ok ("/openapi/systems/S1/summary", apiWithSys, .null) ∧
    get_devices apiFresh .null [] = .error (.valueError noSystemIdMsg) ∧
    get_system_summary apiFresh .null [] = .error (.valueError noSystemIdMsg) ∧
    get_system_energy_flow apiFresh .null [] = .error (.valueError noSystemIdMsg) ∧
    get_device_realtime_info apiFresh .null .null [] = .error (.valueError noSystemIdMsg) ∧
    get_device_realtime_info apiWithSys .null .null [] = .error (.valueError noDeviceSnMsg) ∧
    get_system_history apiFresh .null none none none [] = .error (.valueError noSystemIdMsg) ∧
    isNullPointerStyle (.valueError noSystemIdMsg) = false :=
  ⟨(missing_context_resolution apiWithSys (.str "EXP") .null []).1 rfl,
   (missing_context_resolution apiWithSys (.str "EXP") .null []).2.2.2.2.2.1 rfl,
   (missing_context_resolution apiWithSys .null .null []).2.2.2.2.2.1 rfl,
   (missing_context_resolution apiFresh .null .null []).2.2.1 rfl,
   (missing_context_resolution apiFresh .null .null []).2.2.2.2.1 rfl,
   (missing_context_resolution apiFresh .null .null []).2.2.2.2.2.2.1 rfl,
   (missing_context_resolution apiFresh .null .null []).2.2.2.2.2.2.2.2.1 rfl,
   (missing_context_resolution apiWithSys .null .null []).2.2.2.2.2.2.2.2.2.1 rfl rfl,
   (missing_context_resolution apiFresh .null .null []).2.2.2.2.2.2.2.2.2.2.2.1 none none none rfl,
   (missing_context_resolution apiFresh .null .null []).2.2.2.2.2.2.2.2.2.2.2.2.2.1⟩

/-- Decimal digit characters determine their digit. -/
theorem digitChar_inj_lt : ∀ a, a < 10 → ∀ b, b < 10 → digitChar a = digitChar b → a = b := by
  decide

/-- Two-digit zero-padded rendering is injective below 100. -/
theorem pad2Chars_inj {a b : Nat} (ha : a < 100) (hb : b < 100)
    (h : pad2Chars a = pad2Chars b) : a = b := by
  simp only [pad2Chars, List.cons.injEq, and_true] at h
  obtain ⟨h1, h2⟩ := h
  have e1 := digitChar_inj_lt _ (by omega) _ (by omega) h1
  have e2 := digitChar_inj_lt _ (by omega) _ (by omega) h2
  omega

/-- The UTC-offset suffix determines the offset (within the ranges
`datetime` enforces). -/
theorem offsetChars_inj {o1 o2 : Option Int}
    (hb1 : ∀ x, o1 = some x → x.natAbs < 1440)
    (hb2 : ∀ x, o2 = some x → x.natAbs < 1440)
    (h : offsetChars o1 = offsetChars o2) : o1 = o2 := by
  cases o1 with
  | none =>
    cases o2 with
    | none => rfl
    | some y => simp [offsetChars] at h
  | some x =>
    cases o2 with
    | none => simp [offsetChars] at h
    | some y =>
      have hx := hb1 x rfl
      have hy := hb2 y rfl
      simp only [offsetChars, pad2Chars, List.cons_append, List.nil_append,
        List.cons.injEq, and_true] at h
      obtain ⟨hs, hd1, hd2, _, hd3, hd4⟩ := h
      have e1 := digitChar_inj_lt _ (by omega) _ (by omega) hd1
      have e2 := digitChar_inj_lt _ (by omega) _ (by omega) hd2
      have e3 := digitChar_inj_lt _ (by omega) _ (by omega) hd3
      have e4 := digitChar_inj_lt _ (by omega) _ (by omega) hd4
      have habs : x.natAbs = y.natAbs := by omega
      by_cases hxs : x < 0
      · by_cases hys : y < 0
        · have : x = y := by omega
          rw [this]
        · rw [if_pos hxs, if_neg hys] at hs
          exact absurd hs (by decide)
      · by_cases hys : y < 0
        · rw [if_neg hxs, if_pos hys] at hs
          exact absurd hs (by decide)
        · have : x = y := by omega
          rw [this]

/-- Four-digit zero-padded rendering is injective below 10000. -/
theorem pad4Chars_inj {a b : Nat} (ha : a < 10000) (hb : b < 10000)
    (h : pad4Chars a = pad4Chars b) : a = b := by
  simp only [pad4Chars, List.cons.injEq, and_true] at h
  obtain ⟨h1, h2, h3, h4⟩ := h
  have e1 := digitChar_inj_lt _ (by omega) _ (by omega) h1
  have e2 := digitChar_inj_lt _ (by omega) _ (by omega) h2
  have e3 := digitChar_inj_lt _ (by omega) _ (by omega) h3
  have e4 := digitChar_inj_lt _ (by omega) _ (by omega) h4
  omega

/-- `isoformat()` output is round-trippable: it determines the datetime,
including whether it is timezone-aware and which offset it carries. -/
theorem isoformat_inj (d1 d2 : PyDateTime) (hv1 : d1.valid = true) (hv2 : d2.valid = true)
    (h : d1.isoformat = d2.isoformat) : d1 = d2 := by
  have hc : isoformatChars d1 = isoformatChars d2 := congrArg String.data h
  obtain ⟨y1, mo1, dd1, hh1, mi1, s1, tz1⟩ := d1
  obtain ⟨y2, mo2, dd2, hh2, mi2, s2, tz2⟩ := d2
  simp only [PyDateTime.valid, Bool.and_eq_true, decide_eq_true_eq] at hv1 hv2
  obtain ⟨⟨⟨⟨⟨⟨⟨⟨⟨a1, a2⟩, a3⟩, a4⟩, a5⟩, a6⟩, a7⟩, a8⟩, a9⟩, a10⟩ := hv1
  obtain ⟨⟨⟨⟨⟨⟨⟨⟨⟨b1, b2⟩, b3⟩, b4⟩, b5⟩, b6⟩, b7⟩, b8⟩, b9⟩, b10⟩ := hv2
  simp only [isoformatChars, pad4Chars, pad2Chars, List.cons_append, List.nil_append,
    List.cons.injEq, true_and] at hc
  obtain ⟨e1, e2, e3, e4, e5, e6, e7, e8, e9, e10, e11, e12, e13, e14, eoff⟩ := hc
  have q1 := digitChar_inj_lt _ (by omega) _ (by omega) e1
  have q2 := digitChar_inj_lt _ (by omega) _ (by omega) e2
  have q3 := digitChar_inj_lt _ (by omega) _ (by omega) e3
  have q4 := digitChar_inj_lt _ (by omega) _ (by omega) e4
  have q5 := digitChar_inj_lt _ (by omega) _ (by omega) e5
  have q6 := digitChar_inj_lt _ (by omega) _ (by omega) e6
  have q7 := digitChar_inj_lt _ (by omega) _ (by omega) e7
  have q8 := digitChar_inj_lt _ (by omega) _ (by omega) e8
  have q9 := digitChar_inj_lt _ (by omega) _ (by omega) e9
  have q10 := digitChar_inj_lt _ (by omega) _ (by omega) e10
  have q11 := digitChar_inj_lt _ (by omega) _ (by omega) e11
  have q12 := digitChar_inj_lt _ (by omega) _ (by omega) e12
  have q13 := digitChar_inj_lt _ (by omega) _ (by omega) e13
  have q14 := digitChar_inj_lt _ (by omega) _ (by omega) e14
  have hbt1 : ∀ x, tz1 = some x → x.natAbs < 1440 := by
    intro x hx
    rw [hx] at a10
    simpa using a10
  have hbt2 : ∀ x, tz2 = some x → x.natAbs < 1440 := by
    intro x hx
    rw [hx] at b10
    simpa using b10
  have htz := offsetChars_inj hbt1 hbt2 eoff
  simp only [PyDateTime.mk.injEq]
  refine ⟨by omega, by omega, by omega, by omega, by omega, by omega, htz⟩

/-- `isoformat()` output is never the empty string nor the text `None`. -/
theorem isoformat_ne (d : PyDateTime) : d.isoformat ≠ "" ∧ d.isoformat ≠ "None" := by
  constructor
  · intro h
    have hc : isoformatChars d = [] := congrArg String.data h
    simp [isoformatChars, pad4Chars, pad2Chars] at hc
  · intro h
    have hc : isoformatChars d = ['N', 'o', 'n', 'e'] := congrArg String.data h
    simp [isoformatChars, pad4Chars, pad2Chars] at hc

/-- C8 (confirmed): `get_system_history` builds exactly one query parameter
per supplied optional argument: an omitted (or falsy) `startTime`, `endTime`
or `interval` produces no corresponding parameter at all — never an
empty-string or `None`-valued one — and supplied timestamps are serialised
with `isoformat()`, a timezone-aware round-trippable (injective) textual
form. -/
theorem history_params_exact (api : SigenAPI) (sysArg : JValue)
    (st et : Option PyDateTime) (iv : Option String) (resp : PyDict)
    (hsys : pyTruthy (pyOr sysArg api.system_id) = true) :
    get_system_history api sysArg st et iv resp =
      .ok ("/openapi/systems/" ++ pyStr (pyOr sysArg api.system_id) ++ "/history",
           historyParams st et iv, api, parse_data_field resp) ∧
    (∀ v, ("startTime", v) ∈ historyParams st et iv ↔ ∃ d, st = some d ∧ v = d.isoformat) ∧
    (∀ v, ("endTime", v) ∈ historyParams st et iv ↔ ∃ d, et = some d ∧ v = d.isoformat) ∧
    (∀ v, ("interval", v) ∈ historyParams st et iv ↔ iv = some v ∧ v ≠ "") ∧
    (∀ kv ∈ historyParams st et iv,
      kv.1 = "startTime" ∨ kv.1 = "endTime" ∨ kv.1 = "interval") ∧
    (∀ kv ∈ historyParams st et iv, kv.2 ≠ "") ∧
    (∀ d : PyDateTime, PyDateTime.isoformat d ≠ "" ∧ PyDateTime.isoformat d ≠ "None") ∧
    (∀ d1 d2 : PyDateTime, d1.valid = true → d2.valid = true →
      d1.isoformat = d2.isoformat → d1 = d2) := by
  refine ⟨?_, ?_, ?_, ?_, ?_, ?_, isoformat_ne, isoformat_inj⟩
  · simp only [get_system_history, hsys, Bool.not_true, Bool.false_eq_true, if_false]
  · intro v
    rcases st with _ | d <;> rcases et with _ | d2 <;> rcases iv with _ | s <;>
      simp [historyParams]
  · intro v
    rcases st with _ | d <;> rcases et with _ | d2 <;> rcases iv with _ | s <;>
      simp [historyParams]
  · intro v
    rcases st with _ | d <;> rcases et with _ | d2 <;> rcases iv with _ | s <;>
      simp [historyParams] <;>
      (constructor
       · rintro ⟨h1, rfl⟩
         exact ⟨rfl, h1⟩
       · rintro ⟨rfl, h2⟩
         exact ⟨h2, rfl⟩)
  · intro kv hkv
    simp only [historyParams, List.mem_append] at hkv
    rcases hkv with (hkv | hkv) | hkv
    · rcases st with _ | d
      · simp at hkv
      · simp at hkv
        rw [hkv]
        simp
    · rcases et with _ | d2
      · simp at hkv
      · simp at hkv
        rw [hkv]
        simp
    · rcases iv with _ | s
      · simp at hkv
      · by_cases hs : s = ""
        · simp [hs] at hkv
        · simp [hs] at hkv
          rw [hkv]
          simp
  · intro kv hkv
    simp only [historyParams, List.mem_append] at hkv
    rcases hkv with (hkv | hkv) | hkv
    · rcases st with _ | d
      · simp at hkv
      · simp at hkv
        rw [hkv]
        exact (isoformat_ne d).1
    · rcases et with _ | d2
      · simp at hkv
      · simp at hkv
        rw [hkv]
        exact (isoformat_ne d2).1
    · rcases iv with _ | s
      · simp at hkv
      · by_cases hs : s = ""
        · simp [hs] at hkv
        · simp [hs] at hkv
          rw [hkv]
          exact hs

/-- Witness for C8 at the documented scenario: `startTime` and `endTime`
supplied (timezone-aware, UTC+10), `interval` omitted — the query carries
exactly the two supplied parameters. -/
theorem history_params_exact_witness :
    get_system_history apiWithSys .null (some ⟨2024, 3, 5, 14, 30, 0, some 600⟩)
        (some ⟨2024, 3, 6, 0, 0, 0, some 600⟩) none [] =
      .ok ("/openapi/systems/S1/history",
           [("startTime", "2024-03-05T14:30:00+10:00"),
            ("endTime", "2024-03-06T00:00:00+10:00")],
           apiWithSys, .null) :=
  (history_params_exact apiWithSys .null (some ⟨2024, 3, 5, 14, 30, 0, some 600⟩)
    (some ⟨2024, 3, 6, 0, 0, 0, some 600⟩) none [] rfl).1

/-- Dictionary assignment with a fresh key appends. -/
theorem dictSet_append (d : PyDict) (k : String) (v : JValue)
    (hk : ∀ kv ∈ d, kv.1 ≠ k) : dictSet d k v = d ++ [(k, v)] := by
  have hfalse : d.any (fun kv => kv.1 = k) = false := by
    rw [List.any_eq_false]
    intro kv hkv
    simpa using hk kv hkv
  simp [dictSet, hfalse]

/-- The power-flow dictionary loop, over a fresh accumulator, is filtering
plus per-value coercion. -/
theorem powerFlowFold_go (kvs : PyDict) :
    ∀ acc : PyDict, (∀ p ∈ acc, ∀ q ∈ kvs, p.1 ≠ q.1) →
      (kvs.map Prod.fst).Nodup →
      kvs.foldl
        (fun acc kv => if powerKeyMatch kv.1 then dictSet acc kv.1 (coercePower kv.2) else acc)
        acc =
        acc ++ kvs.filterMap
          (fun kv => if powerKeyMatch kv.1 then some (kv.1, coercePower kv.2) else none) := by
  induction kvs with
  | nil =>
    intro acc _ _
    simp
  | cons kv t ih =>
    intro acc hdisj hnd
    simp only [List.foldl_cons, List.filterMap_cons]
    have hnd2 : (t.map Prod.fst).Nodup := by
      simp only [List.map_cons, List.nodup_cons] at hnd
      exact hnd.2
    have hknot : kv.1 ∉ t.map Prod.fst := by
      simp only [List.map_cons, List.nodup_cons] at hnd
      exact hnd.1
    by_cases hm : powerKeyMatch kv.1 = true
    · rw [if_pos hm, if_pos hm]
      have hset : dictSet acc kv.1 (coercePower kv.2) = acc ++ [(kv.1, coercePower kv.2)] :=
        dictSet_append _ _ _ (fun p hp => hdisj p hp kv (List.mem_cons_self _ _))
      rw [hset, ih (acc ++ [(kv.1, coercePower kv.2)]) ?_ hnd2]
      · simp
      · intro p hp q hq
        rcases List.mem_append.mp hp with hp1 | hp1
        · exact hdisj p hp1 q (List.mem_cons_of_mem _ hq)
        · have hpk : p = (kv.1, coercePower kv.2) := by simpa using hp1
          rw [hpk]
          intro hcontra
          exact hknot (hcontra ▸ List.mem_map_of_mem Prod.fst hq)
    · rw [if_neg hm, if_neg hm]
      exact ih acc (fun p hp q hq => hdisj p hp q (List.mem_cons_of_mem _ hq)) hnd2

/-- `powerFlowFold` is filtering plus per-value coercion when the energy-flow
keys are distinct (as they are for any decoded dictionary). -/
theorem powerFlowFold_filterMap (kvs : PyDict) (hnd : (kvs.map Prod.fst).Nodup) :
    powerFlowFold kvs =
      kvs.filterMap
        (fun kv => if powerKeyMatch kv.1 then some (kv.1, coercePower kv.2) else none) := by
  have h := powerFlowFold_go kvs [] (by simp) hnd
  simpa [powerFlowFold] using h

/-- C9 (confirmed): `get_current_power_flow` returns exactly the entries of
the energy-flow mapping whose key contains the case-insensitive substring
`power` or `watt`; each kept value is replaced by its `float` coercion when
coercion succeeds and kept unchanged when it fails; keys matching neither
substring never appear in the result. -/
theorem power_flow_filter_coerce (api : SigenAPI) (sysArg : JValue) (resp : PyDict)
    (kvs : PyDict)
    (hsys : pyTruthy (pyOr sysArg api.system_id) = true)
    (hdata : parse_data_field resp = .obj kvs)
    (hnd : (kvs.map Prod.fst).Nodup) :
    get_current_power_flow api sysArg resp =
      .ok ("/openapi/systems/" ++ pyStr (pyOr sysArg api.system_id) ++ "/energyFlow", api,
           kvs.filterMap
             (fun kv => if powerKeyMatch kv.1 then some (kv.1, coercePower kv.2) else none)) ∧
    (∀ k v, (k, v) ∈ kvs.filterMap
        (fun kv => if powerKeyMatch kv.1 then some (kv.1, coercePower kv.2) else none) →
      powerKeyMatch k = true) ∧
    (∀ k v, (k, v) ∈ kvs → powerKeyMatch k = true →
      (k, coercePower v) ∈ kvs.filterMap
        (fun kv => if powerKeyMatch kv.1 then some (kv.1, coercePower kv.2) else none)) ∧
    (∀ v n, pyFloat v = some n → coercePower v = .num n) ∧
    (∀ v, pyFloat v = none → coercePower v = v) := by
  refine ⟨?_, ?_, ?_, ?_, ?_⟩
  · simp only [get_current_power_flow, get_system_energy_flow, hsys, Bool.not_true,
      Bool.false_eq_true, if_false, hdata, powerFlowFold_filterMap kvs hnd]
  · intro k v hkv
    simp only [List.mem_filterMap] at hkv
    obtain ⟨⟨k0, v0⟩, hmem, hf⟩ := hkv
    by_cases hm : powerKeyMatch k0 = true
    · rw [if_pos hm] at hf
      injection hf with h1
      injection h1 with h2 h3
      rw [← h2]
      exact hm
    · rw [if_neg hm] at hf
      cases hf
  · intro k v hmem hm
    exact List.mem_filterMap.mpr ⟨(k, v), hmem, by rw [if_pos hm]⟩
  · intro v n h
    simp [coercePower, h]
  · intro v h
    simp [coercePower, h]

/-- Witness for C9: a concrete energy-flow mapping with a numeric-string
power value (coerced), a non-numeric power value (kept), a key matching
neither substring (dropped) and a native numeric power value. -/
theorem power_flow_filter_coerce_witness :
    get_current_power_flow apiWithSys .null
        [("data", .obj [("gridPower", .str "3.5"), ("batteryWatt", .str "n/a"),
                        ("soc", .num ⟨55, 0⟩), ("pvPower", .num ⟨12, 1⟩)])] =
      .ok ("/openapi/systems/S1/energyFlow", apiWithSys,
           [("gridPower", .num ⟨35, 1⟩), ("batteryWatt", .str "n/a"),
            ("pvPower", .num ⟨12, 1⟩)]) :=
  (power_flow_filter_coerce apiWithSys .null
    [("data", .obj [("gridPower", .str "3.5"), ("batteryWatt", .str "n/a"),
                    ("soc", .num ⟨55, 0⟩), ("pvPower", .num ⟨12, 1⟩)])]
    [("gridPower", .str "3.5"), ("batteryWatt", .str "n/a"),
     ("soc", .num ⟨55, 0⟩), ("pvPower", .num ⟨12, 1⟩)]
    rfl rfl (by simp)).1
